import Mathlib

/-!
Shallow embedding of the central coordinator of rtsp-simple-server
(src/main.go): the data model (program state, clients, sources,
publishers), the event loop `program.run` (`processEvent`), the
publisher-by-address lookup `program.findPublisher`, the forwarding
fabric `program.forwardFrame`, and the post-terminate drain loop.
Machine integers are modelled as `Int`/`Nat`; byte buffers as `List Nat`;
the Go heap of client/source objects as total maps `Nat → _` plus the
coordinator's membership list, mirroring pointers versus set membership.
-/

namespace Rtsp

/-- Byte buffer (Go `[]byte`). -/
abbrev Bytes := List Nat

/-- gortsplib.StreamType: RTP or RTCP. -/
inductive StreamType
  | rtp
  | rtcp
deriving DecidableEq

/-- streamProtocol (main.go:24): UDP or TCP. -/
inductive StreamProtocol
  | udp
  | tcp
deriving DecidableEq

/-- Client session states referenced by main.go (clientStateAnnounce,
clientStatePrePlay, clientStatePlay, clientStatePreRecord, clientStateRecord);
the enumeration itself lives in client.go. Modelled from the spec section 4.5
state machine, which adds the INITIAL state for a fresh connection. -/
inductive ClientState
  | initial
  | announce
  | prePlay
  | play
  | preRecord
  | record
deriving DecidableEq

/-- track (main.go:19): one RTP/RTCP port pair. -/
structure Track where
  rtpPort : Int
  rtcpPort : Int
deriving DecidableEq

/-- sdp.SessionDescription, reduced to what main.go reads from it:
the list of media descriptions (only their number matters here). -/
structure SessionDescription where
  mediaDescriptions : List String
deriving DecidableEq

/-- serverClient fields read or written by main.go. `ip`/`zone` stand for
the remote address accessors `c.ip()`/`c.zone()`; `sdpText`/`sdpParsed`
back the publisher interface of a client-publisher. -/
structure ServerClient where
  ip : Nat
  zone : String
  path : String
  state : ClientState
  streamProtocol : StreamProtocol
  streamTracks : List Track
  sdpText : Bytes
  sdpParsed : SessionDescription
deriving DecidableEq

/-- source fields read by main.go (source.go holds the full struct). -/
structure Source where
  path : String
  ready : Bool
  sdpText : Bytes
  sdpParsed : SessionDescription
deriving DecidableEq

/-- A value of the `publisher` interface (main.go:169): either a
serverClient or a source, identified by its heap id. -/
inductive PubRef
  | client (id : Nat)
  | src (id : Nat)
deriving DecidableEq

/-- Coordinator-owned state (main.go:175). The Go heap of client and
source objects is a total map from ids; `clients` is the membership list
of the set `p.clients`; `publishers` is the association list of the map
`p.publishers` (unique keys). -/
structure ProgState where
  clientHeap : Nat → ServerClient
  sourceHeap : Nat → Source
  clients : List Nat
  publishers : List (String × PubRef)
  publisherCount : Int
  receiverCount : Int

/-- The programEvent variants of main.go, with channels dropped and
pointers replaced by heap ids. -/
inductive Event
  | clientNew (id : Nat) (ip : Nat) (zone : String)
  | clientClose (id : Nat)
  | describe (path : String)
  | announce (id : Nat) (path : String)
  | setupPlay (id : Nat) (path : String) (protocol : StreamProtocol) (rtpPort rtcpPort : Int)
  | setupRecord (id : Nat) (protocol : StreamProtocol) (rtpPort rtcpPort : Int)
  | play1 (id : Nat)
  | play2 (id : Nat)
  | playStop (id : Nat)
  | record (id : Nat)
  | recordStop (id : Nat)
  | frameUdp (ip : Nat) (port : Int) (streamType : StreamType) (buf : Bytes)
  | frameTcp (path : String) (trackId : Nat) (streamType : StreamType) (buf : Bytes)
  | streamerReady (sid : Nat)
  | streamerNotReady (sid : Nat)
  | streamerFrame (sid : Nat) (trackId : Nat) (streamType : StreamType) (buf : Bytes)
  | terminate
deriving DecidableEq

/-- What an event handler sends back on the event's channel:
nothing (`silent`, events without channels), `ok`/`err` on an error
channel, an SDP body or nil on a Describe result channel, or the
closing of a done channel. -/
inductive Reply
  | silent
  | ok
  | err (msg : String)
  | sdp (body : Option Bytes)
  | done
deriving DecidableEq

/-- True exactly on `Reply.err`. -/
def Reply.isErr : Reply → Bool
  | Reply.err _ => true
  | _ => false

/-- One outbound write emitted by forwardFrame: a datagram handed to the
RTP or RTCP UDP listener, or an interleaved frame queued to a client. -/
inductive Write
  | udp (streamType : StreamType) (ip : Nat) (zone : String) (port : Int) (buf : Bytes)
  | tcp (clientId : Nat) (trackId : Nat) (streamType : StreamType) (buf : Bytes)
deriving DecidableEq

/-- Observable output of processing one event: the reply, the writes
emitted by forwardFrame, and the clients whose close was scheduled
(`go oc.close()`). -/
structure Output where
  reply : Reply
  writes : List Write
  closes : List Nat
deriving DecidableEq

def noOut : Output :=
  { reply := Reply.silent, writes := [], closes := [] }

def replyOut (r : Reply) : Output :=
  { reply := r, writes := [], closes := [] }

@[simp] theorem replyOut_reply (r : Reply) : (replyOut r).reply = r := rfl

@[simp] theorem replyOut_writes (r : Reply) : (replyOut r).writes = [] := rfl

@[simp] theorem replyOut_closes (r : Reply) : (replyOut r).closes = [] := rfl

@[simp] theorem noOut_reply : noOut.reply = Reply.silent := rfl

@[simp] theorem noOut_writes : noOut.writes = [] := rfl

@[simp] theorem noOut_closes : noOut.closes = [] := rfl

/-- Go map read `p.publishers[path]` over the association list. -/
def lookupPub : List (String × PubRef) → String → Option PubRef
  | [], _ => none
  | e :: rest, path => if e.1 = path then some e.2 else lookupPub rest path

/-- Go map `delete(p.publishers, path)` (keys are unique). -/
def deletePub (pubs : List (String × PubRef)) (path : String) : List (String × PubRef) :=
  pubs.filter (fun e => decide (e.1 ≠ path))

/-- publisherIsReady dispatch. The source side is source.ready as read in
main.go. Modelled from the spec: the client-side implementation lives in
client.go (absent from src); per spec section 3 a client-publisher is one
that "has completed ANNOUNCE + SETUP(record) + RECORD", so it is ready
exactly in state RECORD. -/
def publisherIsReady (s : ProgState) : PubRef → Bool
  | PubRef.client i => decide ((s.clientHeap i).state = ClientState.record)
  | PubRef.src i => (s.sourceHeap i).ready

/-- publisherSdpText dispatch; the client side (client.go, absent from
src) is modelled from the spec as the SDP negotiated at ANNOUNCE, held by
the session. -/
def publisherSdpText (s : ProgState) : PubRef → Bytes
  | PubRef.client i => (s.clientHeap i).sdpText
  | PubRef.src i => (s.sourceHeap i).sdpText

/-- publisherSdpParsed dispatch; client side modelled from the spec as
for `publisherSdpText`. -/
def publisherSdpParsed (s : ProgState) : PubRef → SessionDescription
  | PubRef.client i => (s.clientHeap i).sdpParsed
  | PubRef.src i => (s.sourceHeap i).sdpParsed

/-- Mutate the client object at `id` (a write through the Go pointer). -/
def updateClient (s : ProgState) (id : Nat) (f : ServerClient → ServerClient) : ProgState :=
  { s with clientHeap := Function.update s.clientHeap id (f (s.clientHeap id)) }

/-- Mutate the source object at `id`. -/
def updateSource (s : ProgState) (id : Nat) (f : Source → Source) : ProgState :=
  { s with sourceHeap := Function.update s.sourceHeap id (f (s.sourceHeap id)) }

def defaultTrack : Track :=
  { rtpPort := 0, rtcpPort := 0 }

/-- Inner loop of findPublisher (main.go:505): first track index whose
port of the given stream type equals the peer port, counting from `i`. -/
def findTrackFrom (streamType : StreamType) (port : Int) : List Track → Nat → Option Nat
  | [], _ => none
  | t :: rest, i =>
    if streamType = StreamType.rtp then
      if t.rtpPort = port then some i else findTrackFrom streamType port rest (i + 1)
    else
      if t.rtcpPort = port then some i else findTrackFrom streamType port rest (i + 1)

/-- Outer loop of findPublisher (main.go:492): scan the publisher map for
a client-publisher recording over UDP from the peer address. -/
def findPublisherIn (s : ProgState) (ip : Nat) (port : Int) (streamType : StreamType) :
    List (String × PubRef) → Option (Nat × Nat)
  | [] => none
  | (_, PubRef.src _) :: rest => findPublisherIn s ip port streamType rest
  | (_, PubRef.client cid) :: rest =>
    if (s.clientHeap cid).streamProtocol ≠ StreamProtocol.udp ∨
        (s.clientHeap cid).state ≠ ClientState.record ∨
        (s.clientHeap cid).ip ≠ ip then
      findPublisherIn s ip port streamType rest
    else
      match findTrackFrom streamType port (s.clientHeap cid).streamTracks 0 with
      | some i => some (cid, i)
      | none => findPublisherIn s ip port streamType rest

/-- program.findPublisher (main.go:492). -/
def findPublisher (s : ProgState) (ip : Nat) (port : Int) (streamType : StreamType) :
    Option (Nat × Nat) :=
  findPublisherIn s ip port streamType s.publishers

/-- Loop body of program.forwardFrame (main.go:520) over the client set:
each client on the frame's path in state PLAY receives exactly one write;
UDP receivers get a datagram addressed to the track's advertised port,
TCP receivers get the frame copied into their outbound queue. -/
def forwardFrameIn (s : ProgState) (path : String) (trackId : Nat) (streamType : StreamType)
    (frame : Bytes) : List Nat → List Write
  | [] => []
  | i :: rest =>
    if (s.clientHeap i).path = path ∧ (s.clientHeap i).state = ClientState.play then
      (if (s.clientHeap i).streamProtocol = StreamProtocol.udp then
        if streamType = StreamType.rtp then
          Write.udp StreamType.rtp (s.clientHeap i).ip (s.clientHeap i).zone
            (((s.clientHeap i).streamTracks.getD trackId defaultTrack).rtpPort) frame
        else
          Write.udp StreamType.rtcp (s.clientHeap i).ip (s.clientHeap i).zone
            (((s.clientHeap i).streamTracks.getD trackId defaultTrack).rtcpPort) frame
      else
        Write.tcp i trackId streamType frame) ::
        forwardFrameIn s path trackId streamType frame rest
    else
      forwardFrameIn s path trackId streamType frame rest

/-- program.forwardFrame (main.go:520). -/
def forwardFrame (s : ProgState) (path : String) (trackId : Nat) (streamType : StreamType)
    (frame : Bytes) : List Write :=
  forwardFrameIn s path trackId streamType frame s.clients

/-- One iteration of the main event loop program.run (main.go:274):
the state after the event and the observable output. The construction of
a fresh session by newServerClient (client.go, absent from src) is
modelled from the spec: state INITIAL, no path, no tracks. The call
`client.RtcpReceivers[trackId].OnFrame` on a matched UDP frame is an
external statistics collaborator and mutates no coordinator state. -/
def processEvent (s : ProgState) : Event → ProgState × Output
  | Event.clientNew id ip zone =>
    ({ s with
        clients := id :: s.clients,
        clientHeap := Function.update s.clientHeap id
          { ip := ip, zone := zone, path := "", state := ClientState.initial,
            streamProtocol := StreamProtocol.udp, streamTracks := [],
            sdpText := [], sdpParsed := { mediaDescriptions := [] } } },
      noOut)
  | Event.clientClose id =>
    if id ∈ s.clients then
      ({ s with
          clients := s.clients.filter (fun j => decide (j ≠ id)),
          publishers :=
            if (s.clientHeap id).path ≠ "" ∧
                lookupPub s.publishers (s.clientHeap id).path = some (PubRef.client id) then
              deletePub s.publishers (s.clientHeap id).path
            else s.publishers },
        replyOut Reply.done)
    else
      (s, replyOut Reply.done)
  | Event.describe path =>
    match lookupPub s.publishers path with
    | none => (s, replyOut (Reply.sdp none))
    | some pub =>
      if publisherIsReady s pub then
        (s, replyOut (Reply.sdp (some (publisherSdpText s pub))))
      else
        (s, replyOut (Reply.sdp none))
  | Event.announce id path =>
    match lookupPub s.publishers path with
    | some _ =>
      (s, replyOut (Reply.err ("someone is already publishing on path \x27" ++ path ++ "\x27")))
    | none =>
      let s1 := updateClient s id (fun c => { c with path := path, state := ClientState.announce })
      ({ s1 with publishers := (path, PubRef.client id) :: s1.publishers }, replyOut Reply.ok)
  | Event.setupPlay id path protocol rtpPort rtcpPort =>
    match lookupPub s.publishers path with
    | none =>
      (s, replyOut (Reply.err ("no one is streaming on path \x27" ++ path ++ "\x27")))
    | some pub =>
      if publisherIsReady s pub then
        if (s.clientHeap id).streamTracks.length ≥
            (publisherSdpParsed s pub).mediaDescriptions.length then
          (s, replyOut (Reply.err "all the tracks have already been setup"))
        else
          (updateClient s id (fun c =>
            { c with path := path, streamProtocol := protocol,
                     streamTracks := c.streamTracks ++
                       [{ rtpPort := rtpPort, rtcpPort := rtcpPort }],
                     state := ClientState.prePlay }), replyOut Reply.ok)
      else
        (s, replyOut (Reply.err ("no one is streaming on path \x27" ++ path ++ "\x27")))
  | Event.setupRecord id protocol rtpPort rtcpPort =>
    (updateClient s id (fun c =>
      { c with streamProtocol := protocol,
               streamTracks := c.streamTracks ++
                 [{ rtpPort := rtpPort, rtcpPort := rtcpPort }],
               state := ClientState.preRecord }), replyOut Reply.ok)
  | Event.play1 id =>
    match lookupPub s.publishers (s.clientHeap id).path with
    | none =>
      (s, replyOut (Reply.err
        ("no one is streaming on path \x27" ++ (s.clientHeap id).path ++ "\x27")))
    | some pub =>
      if publisherIsReady s pub then
        if (s.clientHeap id).streamTracks.length ≠
            (publisherSdpParsed s pub).mediaDescriptions.length then
          (s, replyOut (Reply.err "not all tracks have been setup"))
        else
          (s, replyOut Reply.ok)
      else
        (s, replyOut (Reply.err
          ("no one is streaming on path \x27" ++ (s.clientHeap id).path ++ "\x27")))
  | Event.play2 id =>
    let s1 := updateClient s id (fun c => { c with state := ClientState.play })
    ({ s1 with receiverCount := s1.receiverCount + 1 }, replyOut Reply.done)
  | Event.playStop id =>
    let s1 := updateClient s id (fun c => { c with state := ClientState.prePlay })
    ({ s1 with receiverCount := s1.receiverCount - 1 }, replyOut Reply.done)
  | Event.record id =>
    let s1 := updateClient s id (fun c => { c with state := ClientState.record })
    ({ s1 with publisherCount := s1.publisherCount + 1 }, replyOut Reply.done)
  | Event.recordStop id =>
    let s1 := updateClient s id (fun c => { c with state := ClientState.preRecord })
    let s2 := { s1 with publisherCount := s1.publisherCount - 1 }
    (s2, { reply := Reply.done, writes := [],
           closes := s2.clients.filter (fun j =>
             decide (j ≠ id ∧ (s2.clientHeap j).path = (s2.clientHeap id).path)) })
  | Event.frameUdp ip port streamType buf =>
    match findPublisher s ip port streamType with
    | none => (s, noOut)
    | some (cid, trackId) =>
      (s, { reply := Reply.silent,
            writes := forwardFrame s ((s.clientHeap cid).path) trackId streamType buf,
            closes := [] })
  | Event.frameTcp path trackId streamType buf =>
    (s, { noOut with writes := forwardFrame s path trackId streamType buf })
  | Event.streamerReady sid =>
    let s1 := updateSource s sid (fun src => { src with ready := true })
    ({ s1 with publisherCount := s1.publisherCount + 1 }, noOut)
  | Event.streamerNotReady sid =>
    let s1 := updateSource s sid (fun src => { src with ready := false })
    let s2 := { s1 with publisherCount := s1.publisherCount - 1 }
    (s2, { noOut with closes := s2.clients.filter (fun j =>
        decide ((s2.clientHeap j).path = (s2.sourceHeap sid).path)) })
  | Event.streamerFrame sid trackId streamType buf =>
    (s, { noOut with writes := forwardFrame s ((s.sourceHeap sid).path) trackId streamType buf })
  | Event.terminate => (s, noOut)

/-- What the post-terminate drain goroutine (main.go:435) answers for
each subsequently received event: done channels are closed, error result
channels receive the "terminated" error, and a Describe result channel
receives nil; events without channels are ignored. -/
inductive DrainAction
  | closeDone
  | replyBytes (body : Option Bytes)
  | replyErr (msg : String)
  | nothing
deriving DecidableEq

/-- The drain loop dispatch (main.go:436). -/
def drainHandle : Event → DrainAction
  | Event.clientClose _ => DrainAction.closeDone
  | Event.describe _ => DrainAction.replyBytes none
  | Event.announce _ _ => DrainAction.replyErr "terminated"
  | Event.setupPlay _ _ _ _ _ => DrainAction.replyErr "terminated"
  | Event.setupRecord _ _ _ _ => DrainAction.replyErr "terminated"
  | Event.play1 _ => DrainAction.replyErr "terminated"
  | Event.play2 _ => DrainAction.closeDone
  | Event.playStop _ => DrainAction.closeDone
  | Event.record _ => DrainAction.closeDone
  | Event.recordStop _ => DrainAction.closeDone
  | _ => DrainAction.nothing

/-- Modelled from the spec: the session-side SETUP(record) handler
(client.go, absent from src) accepts the request only when the client
state is ANNOUNCE or PRE_RECORD (spec section 4.1: "requires client.state
= ANNOUNCE or PRE_RECORD"); otherwise it answers an RTSP error without
contacting the coordinator. On success it emits
programEventClientSetupRecord, handled by main.go:345. -/
def handleSetupRecord (s : ProgState) (id : Nat) (protocol : StreamProtocol)
    (rtpPort rtcpPort : Int) : ProgState × Reply :=
  if (s.clientHeap id).state = ClientState.announce ∨
      (s.clientHeap id).state = ClientState.preRecord then
    let r := processEvent s (Event.setupRecord id protocol rtpPort rtcpPort)
    (r.1, r.2.reply)
  else
    (s, Reply.err "invalid state")

/-- Number of entries of the publisher map whose publisher is ready. -/
def countReadyPublishers (s : ProgState) : Int :=
  ((s.publishers.filter (fun e => publisherIsReady s e.2)).length : Int)

/-- Number of clients of the client set in state PLAY. -/
def countPlayClients (s : ProgState) : Int :=
  ((s.clients.filter (fun i => decide ((s.clientHeap i).state = ClientState.play))).length : Int)

/-- Invariant 3 of the spec: the logging gauges match the ready-publisher
and playing-client counts. -/
def countersOk (s : ProgState) : Prop :=
  s.publisherCount = countReadyPublishers s ∧ s.receiverCount = countPlayClients s

instance (s : ProgState) : Decidable (countersOk s) :=
  inferInstanceAs (Decidable (_ ∧ _))

/-- Invariant 2 of the spec, for receiving clients: a client in PRE_PLAY
or PLAY has set up no more tracks than its path's publisher advertises
media descriptions. -/
def ReceiverBound (s : ProgState) : Prop :=
  ∀ i ∈ s.clients,
    ((s.clientHeap i).state = ClientState.prePlay ∨ (s.clientHeap i).state = ClientState.play) →
    ∀ pub, lookupPub s.publishers (s.clientHeap i).path = some pub →
      (s.clientHeap i).streamTracks.length ≤ (publisherSdpParsed s pub).mediaDescriptions.length

/-! Concrete states used to exercise the theorems. -/

def sourceZero : Source :=
  { path := "", ready := false, sdpText := [], sdpParsed := { mediaDescriptions := [] } }

def camPublisher : ServerClient :=
  { ip := 7, zone := "z", path := "cam", state := ClientState.record,
    streamProtocol := StreamProtocol.udp,
    streamTracks := [{ rtpPort := 9000, rtcpPort := 9001 }, { rtpPort := 9002, rtcpPort := 9003 }],
    sdpText := [1, 2, 3], sdpParsed := { mediaDescriptions := ["video", "audio"] } }

def camViewer : ServerClient :=
  { ip := 5, zone := "", path := "cam", state := ClientState.play,
    streamProtocol := StreamProtocol.udp,
    streamTracks := [{ rtpPort := 8000, rtcpPort := 8001 }, { rtpPort := 8002, rtcpPort := 8003 }],
    sdpText := [], sdpParsed := { mediaDescriptions := [] } }

def camAnnouncer : ServerClient :=
  { ip := 6, zone := "", path := "cam", state := ClientState.announce,
    streamProtocol := StreamProtocol.tcp, streamTracks := [],
    sdpText := [4], sdpParsed := { mediaDescriptions := ["video"] } }

/-- A path "cam" with a recording client-publisher (id 1) and one playing
receiver (id 0); reachable by new 1, announce, setup record, record,
new 0, setup play, play1, play2. -/
def stateLive : ProgState :=
  { clientHeap := fun i => if i = 1 then camPublisher else camViewer,
    sourceHeap := fun _ => sourceZero,
    clients := [0, 1],
    publishers := [("cam", PubRef.client 1)],
    publisherCount := 1,
    receiverCount := 1 }

def camViewerSetup : ServerClient :=
  { ip := 5, zone := "", path := "cam", state := ClientState.prePlay,
    streamProtocol := StreamProtocol.udp,
    streamTracks := [{ rtpPort := 8000, rtcpPort := 8001 }],
    sdpText := [], sdpParsed := { mediaDescriptions := [] } }

/-- Path "cam" with the recording publisher (id 1) and a receiver (id 0)
that has set up one of the two tracks. -/
def stateSetup : ProgState :=
  { clientHeap := fun i => if i = 1 then camPublisher else camViewerSetup,
    sourceHeap := fun _ => sourceZero,
    clients := [0, 1],
    publishers := [("cam", PubRef.client 1)],
    publisherCount := 1,
    receiverCount := 0 }

/-- A client (id 2) that has announced "cam" and set up nothing yet. -/
def stateAnnounced : ProgState :=
  { clientHeap := fun _ => camAnnouncer,
    sourceHeap := fun _ => sourceZero,
    clients := [2],
    publishers := [("cam", PubRef.client 2)],
    publisherCount := 0,
    receiverCount := 0 }

example : countersOk stateLive := by decide

example : countersOk stateAnnounced := by decide

@[simp] theorem updateClient_clients (s : ProgState) (id : Nat) (f : ServerClient → ServerClient) :
    (updateClient s id f).clients = s.clients := rfl

@[simp] theorem updateClient_publishers (s : ProgState) (id : Nat)
    (f : ServerClient → ServerClient) : (updateClient s id f).publishers = s.publishers := rfl

@[simp] theorem updateClient_publisherCount (s : ProgState) (id : Nat)
    (f : ServerClient → ServerClient) :
    (updateClient s id f).publisherCount = s.publisherCount := rfl

@[simp] theorem updateClient_receiverCount (s : ProgState) (id : Nat)
    (f : ServerClient → ServerClient) :
    (updateClient s id f).receiverCount = s.receiverCount := rfl

@[simp] theorem updateClient_sourceHeap (s : ProgState) (id : Nat)
    (f : ServerClient → ServerClient) : (updateClient s id f).sourceHeap = s.sourceHeap := rfl

@[simp] theorem updateClient_heap_self (s : ProgState) (id : Nat)
    (f : ServerClient → ServerClient) :
    (updateClient s id f).clientHeap id = f (s.clientHeap id) := by
  simp [updateClient]

theorem updateClient_heap_other (s : ProgState) (id j : Nat) (f : ServerClient → ServerClient)
    (h : j ≠ id) : (updateClient s id f).clientHeap j = s.clientHeap j := by
  simp [updateClient, Function.update_noteq h]

@[simp] theorem updateSource_clients (s : ProgState) (id : Nat) (f : Source → Source) :
    (updateSource s id f).clients = s.clients := rfl

@[simp] theorem updateSource_publishers (s : ProgState) (id : Nat) (f : Source → Source) :
    (updateSource s id f).publishers = s.publishers := rfl

@[simp] theorem updateSource_clientHeap (s : ProgState) (id : Nat) (f : Source → Source) :
    (updateSource s id f).clientHeap = s.clientHeap := rfl

@[simp] theorem updateSource_heap_self (s : ProgState) (id : Nat) (f : Source → Source) :
    (updateSource s id f).sourceHeap id = f (s.sourceHeap id) := by
  simp [updateSource]

/-- C2: an Announce event fails exactly when the path is taken, with the
already-publishing error naming the path; otherwise it replies ok after
setting the client's path and ANNOUNCE state and registering the client
as the path's publisher (other paths unchanged). -/
theorem claim2_announce (s : ProgState) (id : Nat) (path : String) :
    (∀ pub, lookupPub s.publishers path = some pub →
      (processEvent s (Event.announce id path)).1 = s ∧
      (processEvent s (Event.announce id path)).2.reply =
        Reply.err ("someone is already publishing on path \x27" ++ path ++ "\x27")) ∧
    (lookupPub s.publishers path = none →
      (processEvent s (Event.announce id path)).2.reply = Reply.ok ∧
      ((processEvent s (Event.announce id path)).1.clientHeap id).path = path ∧
      ((processEvent s (Event.announce id path)).1.clientHeap id).state =
        ClientState.announce ∧
      lookupPub (processEvent s (Event.announce id path)).1.publishers path =
        some (PubRef.client id) ∧
      (∀ q, q ≠ path →
        lookupPub (processEvent s (Event.announce id path)).1.publishers q =
          lookupPub s.publishers q)) := by
  constructor
  · intro pub h
    simp [processEvent, h]
  · intro h
    simp only [processEvent, h]
    refine ⟨rfl, ?_, ?_, ?_, ?_⟩
    · simp [updateClient, Function.update_same]
    · simp [updateClient, Function.update_same]
    · simp [lookupPub]
    · intro q hq
      have hne : ¬ (path = q) := fun hc => hq hc.symm
      simp [lookupPub, updateClient, hne]

/-- C2 witness: on `stateLive`, announcing on the taken path "cam" errs
with the already-publishing message, announcing on a free path is ok. -/
theorem claim2_announce_witness :
    (processEvent stateLive (Event.announce 2 "cam")).2.reply =
      Reply.err "someone is already publishing on path \x27cam\x27" ∧
    (processEvent stateLive (Event.announce 2 "new")).2.reply = Reply.ok := by
  constructor
  · have h := ((claim2_announce stateLive 2 "cam").1 (PubRef.client 1) (by decide)).2
    rw [h]
    decide
  · exact ((claim2_announce stateLive 2 "new").2 (by decide)).1

/-- C4: a Describe event never changes coordinator state; it returns the
publisher's stored SDP bytes exactly when the path has a publisher and it
is ready, and the empty (nil) body in every other case. -/
theorem claim4_describe (s : ProgState) (path : String) :
    (processEvent s (Event.describe path)).1 = s ∧
    (∀ pub, lookupPub s.publishers path = some pub → publisherIsReady s pub = true →
      (processEvent s (Event.describe path)).2.reply =
        Reply.sdp (some (publisherSdpText s pub))) ∧
    (lookupPub s.publishers path = none →
      (processEvent s (Event.describe path)).2.reply = Reply.sdp none) ∧
    (∀ pub, lookupPub s.publishers path = some pub → publisherIsReady s pub = false →
      (processEvent s (Event.describe path)).2.reply = Reply.sdp none) := by
  refine ⟨?_, ?_, ?_, ?_⟩
  · cases h : lookupPub s.publishers path with
    | none => simp [processEvent, h]
    | some pub =>
      simp only [processEvent, h]
      by_cases hr : publisherIsReady s pub <;> simp [hr]
  · intro pub h hr
    simp [processEvent, h, hr]
  · intro h
    simp [processEvent, h]
  · intro pub h hr
    simp [processEvent, h, hr]

/-- C4 witness: on `stateLive`, DESCRIBE of "cam" returns the publisher's
SDP bytes unchanged, DESCRIBE of an absent path returns nil, and the
state is untouched. -/
theorem claim4_describe_witness :
    (processEvent stateLive (Event.describe "cam")).2.reply = Reply.sdp (some [1, 2, 3]) ∧
    (processEvent stateLive (Event.describe "nope")).2.reply = Reply.sdp none ∧
    (processEvent stateLive (Event.describe "cam")).1 = stateLive := by
  refine ⟨?_, ?_, (claim4_describe stateLive "cam").1⟩
  · have h := (claim4_describe stateLive "cam").2.1 (PubRef.client 1) (by decide) (by decide)
    rw [h]
    decide
  · exact (claim4_describe stateLive "nope").2.2.1 (by decide)

/-- C3: a SETUP(record) request (session gate modelled from the spec,
coordinator handler from main.go:345) errs unless the client state is
ANNOUNCE or PRE_RECORD, leaving the state untouched; when the
precondition holds it appends exactly one track record with the given
ports, sets the stream protocol, and moves the client to PRE_RECORD. -/
theorem claim3_setup_record (s : ProgState) (id : Nat) (protocol : StreamProtocol)
    (rtpPort rtcpPort : Int) :
    (((s.clientHeap id).state ≠ ClientState.announce ∧
        (s.clientHeap id).state ≠ ClientState.preRecord) →
      (handleSetupRecord s id protocol rtpPort rtcpPort).2.isErr = true ∧
      (handleSetupRecord s id protocol rtpPort rtcpPort).1 = s) ∧
    (((s.clientHeap id).state = ClientState.announce ∨
        (s.clientHeap id).state = ClientState.preRecord) →
      (handleSetupRecord s id protocol rtpPort rtcpPort).2 = Reply.ok ∧
      ((handleSetupRecord s id protocol rtpPort rtcpPort).1.clientHeap id).streamTracks =
        (s.clientHeap id).streamTracks ++ [{ rtpPort := rtpPort, rtcpPort := rtcpPort }] ∧
      ((handleSetupRecord s id protocol rtpPort rtcpPort).1.clientHeap id).streamProtocol =
        protocol ∧
      ((handleSetupRecord s id protocol rtpPort rtcpPort).1.clientHeap id).state =
        ClientState.preRecord) := by
  constructor
  · intro hno
    have hcond : ¬ ((s.clientHeap id).state = ClientState.announce ∨
        (s.clientHeap id).state = ClientState.preRecord) := by
      intro hc
      cases hc with
      | inl h => exact hno.1 h
      | inr h => exact hno.2 h
    simp [handleSetupRecord, hcond, Reply.isErr]
  · intro hyes
    simp [handleSetupRecord, hyes, processEvent, updateClient, Function.update_same]

/-- C3 witness: on `stateAnnounced` (client 2 in ANNOUNCE) the setup
succeeds and appends the track; on `stateLive` client 0 is in PLAY and
the setup errs without touching the state. -/
theorem claim3_setup_record_witness :
    (handleSetupRecord stateAnnounced 2 StreamProtocol.udp 7000 7001).2 = Reply.ok ∧
    ((handleSetupRecord stateAnnounced 2 StreamProtocol.udp 7000 7001).1.clientHeap 2).streamTracks =
      [{ rtpPort := 7000, rtcpPort := 7001 }] ∧
    (handleSetupRecord stateLive 0 StreamProtocol.udp 7000 7001).2.isErr = true ∧
    (handleSetupRecord stateLive 0 StreamProtocol.udp 7000 7001).1 = stateLive := by
  have hok := (claim3_setup_record stateAnnounced 2 StreamProtocol.udp 7000 7001).2
    (Or.inl (by decide))
  have herr := (claim3_setup_record stateLive 0 StreamProtocol.udp 7000 7001).1
    (by constructor <;> decide)
  refine ⟨hok.1, ?_, herr.1, herr.2⟩
  rw [hok.2.1]
  decide

/-- C10: every refusing branch of the coordinator (Announce on a taken
path, SetupPlay without a ready publisher or with all tracks set up,
Play1 without a ready publisher or with a track-count mismatch, Describe
answering nil) leaves the whole coordinator state exactly as it was. -/
theorem claim10_refusal_noop (s : ProgState) (id : Nat) (path : String)
    (protocol : StreamProtocol) (rtpPort rtcpPort : Int) :
    ((processEvent s (Event.announce id path)).2.reply.isErr = true →
      (processEvent s (Event.announce id path)).1 = s) ∧
    ((processEvent s (Event.setupPlay id path protocol rtpPort rtcpPort)).2.reply.isErr = true →
      (processEvent s (Event.setupPlay id path protocol rtpPort rtcpPort)).1 = s) ∧
    ((processEvent s (Event.play1 id)).2.reply.isErr = true →
      (processEvent s (Event.play1 id)).1 = s) ∧
    ((processEvent s (Event.describe path)).2.reply = Reply.sdp none →
      (processEvent s (Event.describe path)).1 = s) := by
  have hdesc : (processEvent s (Event.describe path)).1 = s := by
    cases h : lookupPub s.publishers path with
    | none => simp [processEvent, h]
    | some pub =>
      simp only [processEvent, h]
      by_cases hr : publisherIsReady s pub <;> simp [hr]
  refine ⟨?_, ?_, ?_, fun _ => hdesc⟩
  · cases h : lookupPub s.publishers path with
    | none => intro hh; simp [processEvent, h, replyOut, Reply.isErr] at hh
    | some pub => intro _; simp [processEvent, h]
  · cases h : lookupPub s.publishers path with
    | none => intro _; simp [processEvent, h]
    | some pub =>
      by_cases hr : publisherIsReady s pub
      · by_cases hl : (s.clientHeap id).streamTracks.length ≥
            (publisherSdpParsed s pub).mediaDescriptions.length
        · intro _; simp [processEvent, h, hr, hl]
        · intro hh; simp [processEvent, h, hr, hl, replyOut, Reply.isErr] at hh
      · intro _; simp [processEvent, h, hr]
  · cases h : lookupPub s.publishers (s.clientHeap id).path with
    | none => intro _; simp [processEvent, h]
    | some pub =>
      by_cases hr : publisherIsReady s pub
      · by_cases hl : (s.clientHeap id).streamTracks.length =
            (publisherSdpParsed s pub).mediaDescriptions.length
        · intro hh; simp [processEvent, h, hr, hl, replyOut, Reply.isErr] at hh
        · intro _; simp [processEvent, h, hr, hl]
      · intro _; simp [processEvent, h, hr]

/-- C10 witness: on `stateLive`, a duplicate Announce errs and the state
is exactly the pre-state; a Describe of an absent path answers nil with
the state unchanged. -/
theorem claim10_refusal_noop_witness :
    (processEvent stateLive (Event.announce 2 "cam")).2.reply.isErr = true ∧
    (processEvent stateLive (Event.announce 2 "cam")).1 = stateLive ∧
    (processEvent stateLive (Event.describe "nope")).1 = stateLive := by
  have h := claim10_refusal_noop stateLive 2 "cam" StreamProtocol.udp 0 0
  refine ⟨by decide, h.1 (by decide), ?_⟩
  exact (claim10_refusal_noop stateLive 2 "nope" StreamProtocol.udp 0 0).2.2.2 (by decide)

/-- C9 (counterexample): in the drain loop a Describe event is answered
with the nil body on its result channel, not with a terminated-error. -/
theorem claim9_drain_cex :
    drainHandle (Event.describe "cam") = DrainAction.replyBytes none ∧
    drainHandle (Event.describe "cam") ≠ DrainAction.replyErr "terminated" := by
  decide

/-- C9 (amended): after Terminate every subsequently received event that
carries a channel is released: the error-typed result channels (Announce,
SetupPlay, SetupRecord, Play1) receive the terminated-error, a Describe
result channel receives the empty nil body, and every done channel
(ClientClose, Play2, PlayStop, Record, RecordStop) is closed, so no
session task stays blocked. -/
theorem claim9_drain_releases (id : Nat) (path : String) (protocol : StreamProtocol)
    (rtpPort rtcpPort : Int) :
    drainHandle (Event.clientClose id) = DrainAction.closeDone ∧
    drainHandle (Event.describe path) = DrainAction.replyBytes none ∧
    drainHandle (Event.announce id path) = DrainAction.replyErr "terminated" ∧
    drainHandle (Event.setupPlay id path protocol rtpPort rtcpPort) =
      DrainAction.replyErr "terminated" ∧
    drainHandle (Event.setupRecord id protocol rtpPort rtcpPort) =
      DrainAction.replyErr "terminated" ∧
    drainHandle (Event.play1 id) = DrainAction.replyErr "terminated" ∧
    drainHandle (Event.play2 id) = DrainAction.closeDone ∧
    drainHandle (Event.playStop id) = DrainAction.closeDone ∧
    drainHandle (Event.record id) = DrainAction.closeDone ∧
    drainHandle (Event.recordStop id) = DrainAction.closeDone :=
  ⟨rfl, rfl, rfl, rfl, rfl, rfl, rfl, rfl, rfl, rfl⟩

/-- C8: a RecordStop event decrements publisher_count by exactly one,
moves the client to PRE_RECORD, schedules a close for exactly the other
clients sharing the client's path (no client with a different path), and
leaves the publishers map unchanged. -/
theorem claim8_record_stop (s : ProgState) (id : Nat) :
    (processEvent s (Event.recordStop id)).1.publisherCount = s.publisherCount - 1 ∧
    ((processEvent s (Event.recordStop id)).1.clientHeap id).state = ClientState.preRecord ∧
    (processEvent s (Event.recordStop id)).1.publishers = s.publishers ∧
    (∀ j ∈ s.clients, j ≠ id →
      ((s.clientHeap j).path = (s.clientHeap id).path ↔
        j ∈ (processEvent s (Event.recordStop id)).2.closes)) ∧
    (∀ j ∈ (processEvent s (Event.recordStop id)).2.closes,
      j ∈ s.clients ∧ j ≠ id ∧ (s.clientHeap j).path = (s.clientHeap id).path) := by
  refine ⟨rfl, by simp [processEvent], rfl, ?_, ?_⟩
  · intro j hj hne
    simp only [processEvent, List.mem_filter]
    constructor
    · intro hpath
      refine ⟨hj, ?_⟩
      rw [updateClient_heap_other s id j _ hne, updateClient_heap_self]
      simp [hne, hpath]
    · intro hmem
      have h2 := of_decide_eq_true hmem.2
      rw [updateClient_heap_other s id j _ hne, updateClient_heap_self] at h2
      exact h2.2
  · intro j hj
    simp only [processEvent, List.mem_filter] at hj
    have h2 := of_decide_eq_true hj.2
    have hne : j ≠ id := h2.1
    rw [updateClient_heap_other s id j _ hne, updateClient_heap_self] at h2
    exact ⟨hj.1, hne, h2.2⟩

/-- C8 witness: on `stateLive`, RecordStop of the publisher (client 1)
drops publisher_count from 1 to 0, moves it to PRE_RECORD, keeps the
publishers map, and schedules a close exactly for the viewer (client 0),
which shares path "cam". -/
theorem claim8_record_stop_witness :
    (processEvent stateLive (Event.recordStop 1)).1.publisherCount = 0 ∧
    ((processEvent stateLive (Event.recordStop 1)).1.clientHeap 1).state =
      ClientState.preRecord ∧
    (processEvent stateLive (Event.recordStop 1)).1.publishers =
      [("cam", PubRef.client 1)] ∧
    (0 ∈ (processEvent stateLive (Event.recordStop 1)).2.closes) ∧
    (processEvent stateLive (Event.recordStop 1)).2.closes = [0] := by
  have h := claim8_record_stop stateLive 1
  refine ⟨?_, h.2.1, ?_, ?_, by decide⟩
  · rw [h.1]
    decide
  · rw [h.2.2.1]
    decide
  · exact (h.2.2.2.1 0 (by decide) (by decide)).mp (by decide)

/-- Fidelity of the forwarding loop: running the loop body over any list
of client ids produces exactly the filter-then-map of the receivers. -/
theorem forwardFrameIn_filter_map (s : ProgState) (path : String) (trackId : Nat)
    (streamType : StreamType) (frame : Bytes) (l : List Nat) :
    forwardFrameIn s path trackId streamType frame l =
      (l.filter (fun i =>
        decide ((s.clientHeap i).path = path ∧
          (s.clientHeap i).state = ClientState.play))).map
        (fun i =>
          if (s.clientHeap i).streamProtocol = StreamProtocol.udp then
            if streamType = StreamType.rtp then
              Write.udp StreamType.rtp (s.clientHeap i).ip (s.clientHeap i).zone
                (((s.clientHeap i).streamTracks.getD trackId defaultTrack).rtpPort) frame
            else
              Write.udp StreamType.rtcp (s.clientHeap i).ip (s.clientHeap i).zone
                (((s.clientHeap i).streamTracks.getD trackId defaultTrack).rtcpPort) frame
          else Write.tcp i trackId streamType frame) := by
  induction l with
  | nil => rfl
  | cons a t ih =>
    by_cases h : (s.clientHeap a).path = path ∧ (s.clientHeap a).state = ClientState.play
    · simp only [forwardFrameIn, if_pos h, List.filter_cons, decide_eq_true h, if_pos rfl,
        List.map_cons, ih]
      simp
    · simp only [forwardFrameIn, if_neg h, List.filter_cons, ih]
      simp [h]

/-- C7: forwarding a frame emits exactly one write per client on the
frame's path in state PLAY (in client-set order) and no write for any
other client; a UDP receiver's write is addressed to its own ip/zone and
to the rtp (resp. rtcp) port of its track record at track_id, carrying
the frame bytes unchanged; a TCP receiver gets the frame bytes queued
unchanged. The second conjunct identifies the addressed track record
with stream_tracks[track_id] whenever track_id is in bounds. -/
theorem claim7_forward_frame (s : ProgState) (path : String) (trackId : Nat)
    (streamType : StreamType) (frame : Bytes) :
    forwardFrame s path trackId streamType frame =
      (s.clients.filter (fun i =>
        decide ((s.clientHeap i).path = path ∧
          (s.clientHeap i).state = ClientState.play))).map
        (fun i =>
          if (s.clientHeap i).streamProtocol = StreamProtocol.udp then
            if streamType = StreamType.rtp then
              Write.udp StreamType.rtp (s.clientHeap i).ip (s.clientHeap i).zone
                (((s.clientHeap i).streamTracks.getD trackId defaultTrack).rtpPort) frame
            else
              Write.udp StreamType.rtcp (s.clientHeap i).ip (s.clientHeap i).zone
                (((s.clientHeap i).streamTracks.getD trackId defaultTrack).rtcpPort) frame
          else Write.tcp i trackId streamType frame) ∧
    (∀ i, ∀ h : trackId < (s.clientHeap i).streamTracks.length,
      (s.clientHeap i).streamTracks.getD trackId defaultTrack =
        (s.clientHeap i).streamTracks.get ⟨trackId, h⟩) := by
  constructor
  · exact forwardFrameIn_filter_map s path trackId streamType frame s.clients
  · intro i h
    rw [List.getD_eq_getElem _ _ h]
    simp

/-- C7 witness: on `stateLive`, an RTP frame for "cam" track 0 produces
exactly one write, the UDP datagram to the viewer's advertised RTP port
8000, carrying the frame bytes; the addressed track record is
stream_tracks[0]. -/
theorem claim7_forward_frame_witness :
    forwardFrame stateLive "cam" 0 StreamType.rtp [9, 9] =
      [Write.udp StreamType.rtp 5 "" 8000 [9, 9]] ∧
    (stateLive.clientHeap 0).streamTracks.getD 0 defaultTrack =
      (stateLive.clientHeap 0).streamTracks.get ⟨0, by decide⟩ := by
  have h := claim7_forward_frame stateLive "cam" 0 StreamType.rtp [9, 9]
  refine ⟨?_, h.2 0 (by decide)⟩
  rw [h.1]
  decide

/-- Soundness of the track scan: a returned index counts from the start
offset and names a track whose port of the requested stream type equals
the peer port. -/
theorem findTrackFrom_some (streamType : StreamType) (port : Int) (l : List Track) :
    ∀ n i, findTrackFrom streamType port l n = some i →
      ∃ j, i = n + j ∧ ∃ hj : j < l.length,
        (if streamType = StreamType.rtp then (l.get ⟨j, hj⟩).rtpPort
         else (l.get ⟨j, hj⟩).rtcpPort) = port := by
  induction l with
  | nil => intro n i h; simp [findTrackFrom] at h
  | cons t rest ih =>
    intro n i h
    rw [findTrackFrom] at h
    by_cases hst : streamType = StreamType.rtp
    · rw [if_pos hst] at h
      by_cases hp : t.rtpPort = port
      · rw [if_pos hp] at h
        have hn : n = i := by injection h
        refine ⟨0, by omega, Nat.succ_pos _, ?_⟩
        simpa [hst] using hp
      · rw [if_neg hp] at h
        obtain ⟨j, hij, hj, hm⟩ := ih (n + 1) i h
        refine ⟨j + 1, by omega, Nat.succ_lt_succ hj, ?_⟩
        simpa [hst] using hm
    · rw [if_neg hst] at h
      by_cases hp : t.rtcpPort = port
      · rw [if_pos hp] at h
        have hn : n = i := by injection h
        refine ⟨0, by omega, Nat.succ_pos _, ?_⟩
        simpa [hst] using hp
      · rw [if_neg hp] at h
        obtain ⟨j, hij, hj, hm⟩ := ih (n + 1) i h
        refine ⟨j + 1, by omega, Nat.succ_lt_succ hj, ?_⟩
        simpa [hst] using hm

/-- Completeness of the track scan: if some track matches, the scan finds
one, from any start offset. -/
theorem findTrackFrom_isSome (streamType : StreamType) (port : Int) (l : List Track) :
    ∀ n, (∃ j, ∃ hj : j < l.length,
        (if streamType = StreamType.rtp then (l.get ⟨j, hj⟩).rtpPort
         else (l.get ⟨j, hj⟩).rtcpPort) = port) →
      (findTrackFrom streamType port l n).isSome = true := by
  induction l with
  | nil =>
    intro n h
    obtain ⟨j, hj, _⟩ := h
    exact absurd hj (Nat.not_lt_zero j)
  | cons t rest ih =>
    intro n h
    obtain ⟨j, hj, hm⟩ := h
    rw [findTrackFrom]
    by_cases hst : streamType = StreamType.rtp
    · rw [if_pos hst]
      by_cases hp : t.rtpPort = port
      · rw [if_pos hp]; rfl
      · rw [if_neg hp]
        apply ih (n + 1)
        cases j with
        | zero => simp [hst] at hm; exact absurd hm hp
        | succ k =>
          refine ⟨k, Nat.lt_of_succ_lt_succ hj, ?_⟩
          simpa [hst] using hm
    · rw [if_neg hst]
      by_cases hp : t.rtcpPort = port
      · rw [if_pos hp]; rfl
      · rw [if_neg hp]
        apply ih (n + 1)
        cases j with
        | zero => simp [hst] at hm; exact absurd hm hp
        | succ k =>
          refine ⟨k, Nat.lt_of_succ_lt_succ hj, ?_⟩
          simpa [hst] using hm

/-- Soundness of the publisher scan over any publisher list: a returned
pair names a client entry of the list in RECORD state streaming over UDP
from the peer ip, with a track at the returned index whose port of the
requested stream type equals the peer port. -/
theorem findPublisherIn_sound (s : ProgState) (ip : Nat) (port : Int)
    (streamType : StreamType) (l : List (String × PubRef)) :
    ∀ cid i, findPublisherIn s ip port streamType l = some (cid, i) →
      (∃ q, (q, PubRef.client cid) ∈ l) ∧
      (s.clientHeap cid).streamProtocol = StreamProtocol.udp ∧
      (s.clientHeap cid).state = ClientState.record ∧
      (s.clientHeap cid).ip = ip ∧
      ∃ hi : i < (s.clientHeap cid).streamTracks.length,
        (if streamType = StreamType.rtp
          then ((s.clientHeap cid).streamTracks.get ⟨i, hi⟩).rtpPort
          else ((s.clientHeap cid).streamTracks.get ⟨i, hi⟩).rtcpPort) = port := by
  induction l with
  | nil => intro cid i h; simp [findPublisherIn] at h
  | cons e rest ih =>
    intro cid i h
    rcases e with ⟨q2, pr⟩
    cases pr with
    | src sid =>
      rw [findPublisherIn] at h
      obtain ⟨⟨q, hq⟩, rest_props⟩ := ih cid i h
      exact ⟨⟨q, List.mem_cons_of_mem _ hq⟩, rest_props⟩
    | client cid2 =>
      rw [findPublisherIn] at h
      by_cases hguard : (s.clientHeap cid2).streamProtocol ≠ StreamProtocol.udp ∨
          (s.clientHeap cid2).state ≠ ClientState.record ∨ (s.clientHeap cid2).ip ≠ ip
      · rw [if_pos hguard] at h
        obtain ⟨⟨q, hq⟩, rest_props⟩ := ih cid i h
        exact ⟨⟨q, List.mem_cons_of_mem _ hq⟩, rest_props⟩
      · rw [if_neg hguard] at h
        push_neg at hguard
        cases hf : findTrackFrom streamType port (s.clientHeap cid2).streamTracks 0 with
        | none =>
          rw [hf] at h
          obtain ⟨⟨q, hq⟩, rest_props⟩ := ih cid i h
          exact ⟨⟨q, List.mem_cons_of_mem _ hq⟩, rest_props⟩
        | some j =>
          rw [hf] at h
          have hcid : cid2 = cid ∧ j = i := by
            have := h
            simp only [Option.some.injEq, Prod.mk.injEq] at this
            exact this
          obtain ⟨hcid2, hji⟩ := hcid
          subst hcid2
          subst hji
          obtain ⟨j0, hj0, hjlt, hm⟩ := findTrackFrom_some streamType port _ 0 j hf
          refine ⟨⟨q2, List.mem_cons_self _ _⟩, hguard.1, hguard.2.1, hguard.2.2, ?_⟩
          have hj : j = j0 := by omega
          subst hj
          exact ⟨hjlt, hm⟩

/-- Completeness of the publisher scan over any publisher list: if some
client entry of the list satisfies the address match, the scan returns a
pair. -/
theorem findPublisherIn_complete (s : ProgState) (ip : Nat) (port : Int)
    (streamType : StreamType) (l : List (String × PubRef)) :
    ∀ q cid, (q, PubRef.client cid) ∈ l →
      (s.clientHeap cid).streamProtocol = StreamProtocol.udp →
      (s.clientHeap cid).state = ClientState.record →
      (s.clientHeap cid).ip = ip →
      (∃ j, ∃ hj : j < (s.clientHeap cid).streamTracks.length,
        (if streamType = StreamType.rtp
          then ((s.clientHeap cid).streamTracks.get ⟨j, hj⟩).rtpPort
          else ((s.clientHeap cid).streamTracks.get ⟨j, hj⟩).rtcpPort) = port) →
      (findPublisherIn s ip port streamType l).isSome = true := by
  induction l with
  | nil => intro q cid h; simp at h
  | cons e rest ih =>
    intro q cid hmem hp hs hip htr
    rcases e with ⟨q2, pr⟩
    cases pr with
    | src sid =>
      rw [findPublisherIn]
      rcases List.mem_cons.mp hmem with heq | hrest
      · simp at heq
      · exact ih q cid hrest hp hs hip htr
    | client cid2 =>
      rw [findPublisherIn]
      by_cases hguard : (s.clientHeap cid2).streamProtocol ≠ StreamProtocol.udp ∨
          (s.clientHeap cid2).state ≠ ClientState.record ∨ (s.clientHeap cid2).ip ≠ ip
      · rw [if_pos hguard]
        rcases List.mem_cons.mp hmem with heq | hrest
        · simp only [Prod.mk.injEq, PubRef.client.injEq] at heq
          exfalso
          rw [heq.2] at hp hs hip
          rcases hguard with hg | hg | hg
          · exact hg hp
          · exact hg hs
          · exact hg hip
        · exact ih q cid hrest hp hs hip htr
      · rw [if_neg hguard]
        cases hf : findTrackFrom streamType port (s.clientHeap cid2).streamTracks 0 with
        | some j => simp
        | none =>
          simp only []
          rcases List.mem_cons.mp hmem with heq | hrest
          · simp only [Prod.mk.injEq, PubRef.client.injEq] at heq
            exfalso
            have hsome := findTrackFrom_isSome streamType port
              (s.clientHeap cid).streamTracks 0 htr
            rw [heq.2] at hsome
            rw [hf] at hsome
            simp at hsome
          · exact ih q cid hrest hp hs hip htr

/-- C6: the publisher-by-address lookup returns a pair exactly when some
client entry of the publishers map is a UDP publisher in RECORD state at
the peer ip with a track whose rtp (for RTP) or rtcp (for RTCP) port
equals the peer port; the returned pair satisfies those conditions (so a
source entry is never returned); and when it returns none the FrameUdp
event is dropped with no state change and no output. -/
theorem claim6_find_publisher (s : ProgState) (ip : Nat) (port : Int)
    (streamType : StreamType) :
    (∀ cid i, findPublisher s ip port streamType = some (cid, i) →
      (∃ q, (q, PubRef.client cid) ∈ s.publishers) ∧
      (s.clientHeap cid).streamProtocol = StreamProtocol.udp ∧
      (s.clientHeap cid).state = ClientState.record ∧
      (s.clientHeap cid).ip = ip ∧
      ∃ hi : i < (s.clientHeap cid).streamTracks.length,
        (if streamType = StreamType.rtp
          then ((s.clientHeap cid).streamTracks.get ⟨i, hi⟩).rtpPort
          else ((s.clientHeap cid).streamTracks.get ⟨i, hi⟩).rtcpPort) = port) ∧
    (∀ q cid, (q, PubRef.client cid) ∈ s.publishers →
      (s.clientHeap cid).streamProtocol = StreamProtocol.udp →
      (s.clientHeap cid).state = ClientState.record →
      (s.clientHeap cid).ip = ip →
      (∃ j, ∃ hj : j < (s.clientHeap cid).streamTracks.length,
        (if streamType = StreamType.rtp
          then ((s.clientHeap cid).streamTracks.get ⟨j, hj⟩).rtpPort
          else ((s.clientHeap cid).streamTracks.get ⟨j, hj⟩).rtcpPort) = port) →
      (findPublisher s ip port streamType).isSome = true) ∧
    (findPublisher s ip port streamType = none →
      ∀ buf, processEvent s (Event.frameUdp ip port streamType buf) = (s, noOut)) := by
  refine ⟨?_, ?_, ?_⟩
  · intro cid i h
    exact findPublisherIn_sound s ip port streamType s.publishers cid i h
  · intro q cid hm h1 h2 h3 h4
    exact findPublisherIn_complete s ip port streamType s.publishers q cid hm h1 h2 h3 h4
  · intro h buf
    simp [processEvent, h]

/-- C6 witness: on `stateLive`, an RTP datagram from the publisher's
address (ip 7, source port 9000) resolves to client 1 track 0, which is
recording over UDP; a datagram from an unknown ip resolves to none and
its FrameUdp event leaves the state untouched with no output. -/
theorem claim6_find_publisher_witness :
    findPublisher stateLive 7 9000 StreamType.rtp = some (1, 0) ∧
    (stateLive.clientHeap 1).state = ClientState.record ∧
    (stateLive.clientHeap 1).streamProtocol = StreamProtocol.udp ∧
    (stateLive.clientHeap 1).ip = 7 ∧
    findPublisher stateLive 9 9000 StreamType.rtp = none ∧
    processEvent stateLive (Event.frameUdp 9 9000 StreamType.rtp [1]) = (stateLive, noOut) := by
  have hs := (claim6_find_publisher stateLive 7 9000 StreamType.rtp).1 1 0 (by decide)
  have hdrop := (claim6_find_publisher stateLive 9 9000 StreamType.rtp).2.2 (by decide) [1]
  exact ⟨by decide, hs.2.2.1, hs.2.1, hs.2.2.2.1, by decide, hdrop⟩

/-- Heap writes that leave the stored SDP untouched do not change any
publisher's parsed SDP. -/
theorem publisherSdpParsed_updateClient (s : ProgState) (id : Nat)
    (f : ServerClient → ServerClient) (hf : ∀ c, (f c).sdpParsed = c.sdpParsed)
    (pub : PubRef) :
    publisherSdpParsed (updateClient s id f) pub = publisherSdpParsed s pub := by
  cases pub with
  | client j =>
    by_cases hj : j = id
    · subst hj
      simp [publisherSdpParsed, hf]
    · simp [publisherSdpParsed, updateClient_heap_other s id j f hj]
  | src j => rfl

/-- A successful SetupPlay keeps the receiver track bound: the client it
touches gains one track but stays strictly within the publisher's media
count, and no other client or publisher changes. -/
theorem receiverBound_after_setup (s : ProgState) (id : Nat) (path : String)
    (protocol : StreamProtocol) (rtpPort rtcpPort : Int) (pub : PubRef)
    (hlk : lookupPub s.publishers path = some pub)
    (hlt : (s.clientHeap id).streamTracks.length <
      (publisherSdpParsed s pub).mediaDescriptions.length)
    (hb : ReceiverBound s) :
    ReceiverBound (updateClient s id (fun c =>
      { c with path := path, streamProtocol := protocol,
               streamTracks := c.streamTracks ++
                 [{ rtpPort := rtpPort, rtcpPort := rtcpPort }],
               state := ClientState.prePlay })) := by
  intro i hi hstate pub2 hpub2
  have hsdp := publisherSdpParsed_updateClient s id (fun c =>
    { c with path := path, streamProtocol := protocol,
             streamTracks := c.streamTracks ++
               [{ rtpPort := rtpPort, rtcpPort := rtcpPort }],
             state := ClientState.prePlay }) (fun c => rfl)
  rw [updateClient_clients] at hi
  rw [updateClient_publishers] at hpub2
  by_cases hii : i = id
  · subst hii
    rw [updateClient_heap_self] at hpub2 ⊢
    simp only at hpub2 ⊢
    rw [hsdp pub2]
    have hpub2eq : pub2 = pub := by
      rw [hpub2] at hlk
      exact Option.some.inj hlk
    subst hpub2eq
    simp only [List.length_append, List.length_cons, List.length_nil]
    omega
  · rw [updateClient_heap_other s id i _ hii] at hstate hpub2 ⊢
    rw [hsdp pub2]
    exact hb i hi hstate pub2 hpub2

/-- C5: a SetupPlay event errs (with the no-one-streaming message) when
the path has no publisher or the publisher is not ready, errs (with the
all-tracks message) when the client already has at least as many tracks
as the publisher's SDP has media descriptions, in both cases leaving the
state untouched; otherwise it appends exactly one track record with the
given ports, sets the client's path and protocol, moves it to PRE_PLAY
and replies ok; and processing any SetupPlay event preserves the bound
that every receiving client has at most as many tracks as its path's
publisher advertises media descriptions. -/
theorem claim5_setup_play (s : ProgState) (id : Nat) (path : String)
    (protocol : StreamProtocol) (rtpPort rtcpPort : Int) :
    (lookupPub s.publishers path = none →
      (processEvent s (Event.setupPlay id path protocol rtpPort rtcpPort)).2.reply =
        Reply.err ("no one is streaming on path \x27" ++ path ++ "\x27") ∧
      (processEvent s (Event.setupPlay id path protocol rtpPort rtcpPort)).1 = s) ∧
    (∀ pub, lookupPub s.publishers path = some pub → publisherIsReady s pub = false →
      (processEvent s (Event.setupPlay id path protocol rtpPort rtcpPort)).2.reply =
        Reply.err ("no one is streaming on path \x27" ++ path ++ "\x27") ∧
      (processEvent s (Event.setupPlay id path protocol rtpPort rtcpPort)).1 = s) ∧
    (∀ pub, lookupPub s.publishers path = some pub → publisherIsReady s pub = true →
      (publisherSdpParsed s pub).mediaDescriptions.length ≤
        (s.clientHeap id).streamTracks.length →
      (processEvent s (Event.setupPlay id path protocol rtpPort rtcpPort)).2.reply =
        Reply.err "all the tracks have already been setup" ∧
      (processEvent s (Event.setupPlay id path protocol rtpPort rtcpPort)).1 = s) ∧
    (∀ pub, lookupPub s.publishers path = some pub → publisherIsReady s pub = true →
      (s.clientHeap id).streamTracks.length <
        (publisherSdpParsed s pub).mediaDescriptions.length →
      (processEvent s (Event.setupPlay id path protocol rtpPort rtcpPort)).2.reply =
        Reply.ok ∧
      ((processEvent s (Event.setupPlay id path protocol rtpPort rtcpPort)).1.clientHeap
        id).path = path ∧
      ((processEvent s (Event.setupPlay id path protocol rtpPort rtcpPort)).1.clientHeap
        id).streamProtocol = protocol ∧
      ((processEvent s (Event.setupPlay id path protocol rtpPort rtcpPort)).1.clientHeap
        id).streamTracks = (s.clientHeap id).streamTracks ++
          [{ rtpPort := rtpPort, rtcpPort := rtcpPort }] ∧
      ((processEvent s (Event.setupPlay id path protocol rtpPort rtcpPort)).1.clientHeap
        id).state = ClientState.prePlay ∧
      (processEvent s (Event.setupPlay id path protocol rtpPort rtcpPort)).1.publishers =
        s.publishers) ∧
    (ReceiverBound s →
      ReceiverBound (processEvent s (Event.setupPlay id path protocol rtpPort rtcpPort)).1) := by
  refine ⟨?_, ?_, ?_, ?_, ?_⟩
  · intro h
    simp [processEvent, h]
  · intro pub h hr
    simp [processEvent, h, hr]
  · intro pub h hr hge
    have hge2 : (s.clientHeap id).streamTracks.length ≥
        (publisherSdpParsed s pub).mediaDescriptions.length := hge
    simp [processEvent, h, hr, hge2]
  · intro pub h hr hlt
    have hge2 : ¬ ((s.clientHeap id).streamTracks.length ≥
        (publisherSdpParsed s pub).mediaDescriptions.length) := by omega
    simp [processEvent, h, hr, hge2]
  · intro hb
    cases h : lookupPub s.publishers path with
    | none =>
      simp only [processEvent, h]
      exact hb
    | some pub =>
      by_cases hr : publisherIsReady s pub
      · by_cases hge : (s.clientHeap id).streamTracks.length ≥
            (publisherSdpParsed s pub).mediaDescriptions.length
        · simp only [processEvent, h, hr, if_true, if_pos hge]
          exact hb
        · simp only [processEvent, h, hr, if_true, if_neg hge]
          exact receiverBound_after_setup s id path protocol rtpPort rtcpPort pub h
            (by omega) hb
      · simp only [processEvent, h, if_neg hr]
        exact hb

/-- The receiver bound holds in the concrete pre-state `stateSetup`. -/
theorem receiverBound_stateSetup : ReceiverBound stateSetup := by
  intro i hi hstate pub hpub
  rcases List.mem_cons.mp hi with h0 | hi2
  · subst h0
    simp only [stateSetup, lookupPub] at hpub
    simp at hpub
    rw [← hpub.2]
    decide
  · rcases List.mem_cons.mp hi2 with h1 | hnil
    · subst h1
      exfalso
      revert hstate
      decide
    · simp at hnil

/-- C5 witness: on `stateSetup` (viewer 0 has one of two tracks set up)
SetupPlay succeeds and appends the second track; on `stateLive` (all
tracks set up) it errs with the all-tracks message and changes nothing;
and the receiver bound survives the successful event. -/
theorem claim5_setup_play_witness :
    (processEvent stateSetup (Event.setupPlay 0 "cam" StreamProtocol.udp 8100 8101)).2.reply =
      Reply.ok ∧
    ((processEvent stateSetup
        (Event.setupPlay 0 "cam" StreamProtocol.udp 8100 8101)).1.clientHeap 0).streamTracks =
      [{ rtpPort := 8000, rtcpPort := 8001 }, { rtpPort := 8100, rtcpPort := 8101 }] ∧
    ((processEvent stateSetup
        (Event.setupPlay 0 "cam" StreamProtocol.udp 8100 8101)).1.clientHeap 0).state =
      ClientState.prePlay ∧
    (processEvent stateLive (Event.setupPlay 0 "cam" StreamProtocol.udp 8100 8101)).2.reply =
      Reply.err "all the tracks have already been setup" ∧
    (processEvent stateLive (Event.setupPlay 0 "cam" StreamProtocol.udp 8100 8101)).1 =
      stateLive ∧
    ReceiverBound
      (processEvent stateSetup (Event.setupPlay 0 "cam" StreamProtocol.udp 8100 8101)).1 := by
  have hok := (claim5_setup_play stateSetup 0 "cam" StreamProtocol.udp 8100 8101).2.2.2.1
    (PubRef.client 1) (by decide) (by decide) (by decide)
  have herr := (claim5_setup_play stateLive 0 "cam" StreamProtocol.udp 8100 8101).2.2.1
    (PubRef.client 1) (by decide) (by decide) (by decide)
  have hbound := (claim5_setup_play stateSetup 0 "cam" StreamProtocol.udp 8100 8101).2.2.2.2
    receiverBound_stateSetup
  refine ⟨hok.1, ?_, hok.2.2.2.2.1, herr.1, herr.2, hbound⟩
  rw [hok.2.2.2.1]
  decide

/-- Splitting a filtered length along a marker: if `p` is `q` together
with a marker `m` (and `q` and `m` never hold at once), the `p`-count is
the `q`-count plus the marker count. -/
theorem length_filter_or_split {α : Type} (p q m : α → Bool) (l : List α)
    (h : ∀ a ∈ l, p a = (q a || m a) ∧ (q a && m a) = false) :
    (l.filter p).length = (l.filter q).length + (l.filter m).length := by
  induction l with
  | nil => simp
  | cons a t ih =>
    have ha := h a (List.mem_cons_self a t)
    have ht : ∀ b ∈ t, p b = (q b || m b) ∧ (q b && m b) = false :=
      fun b hb => h b (List.mem_cons_of_mem a hb)
    rw [List.filter_cons, List.filter_cons, List.filter_cons]
    cases hq : q a <;> cases hm : m a
    · have hp : p a = false := by simp [ha.1, hq, hm]
      simp [hp, ih ht]
    · have hp : p a = true := by simp [ha.1, hq, hm]
      simp [hp, ih ht]
      omega
    · have hp : p a = true := by simp [ha.1, hq, hm]
      simp [hp, ih ht]
      omega
    · exfalso
      have := ha.2
      rw [hq, hm] at this
      simp at this

/-- In a duplicate-free list containing `id`, exactly one element equals
`id`. -/
theorem filter_eq_id_length (l : List Nat) (id : Nat) (h1 : l.Nodup) (h2 : id ∈ l) :
    (l.filter (fun j => decide (j = id))).length = 1 := by
  induction l with
  | nil => simp at h2
  | cons a t ih =>
    rw [List.nodup_cons] at h1
    rcases List.mem_cons.mp h2 with heq | hmem
    · subst heq
      have hnil : t.filter (fun j => decide (j = id)) = [] := by
        rw [List.filter_eq_nil_iff]
        intro b hb
        simp only [decide_eq_true_eq]
        intro hba
        exact h1.1 (hba ▸ hb)
      simp [List.filter_cons, hnil]
    · have hne : a ≠ id := fun hh => h1.1 (hh ▸ hmem)
      rw [List.filter_cons]
      simp [hne, ih h1.2 hmem]

/-- Association-list lookup with duplicate-free keys finds any member. -/
theorem lookupPub_of_mem (pubs : List (String × PubRef)) (q : String) (r : PubRef)
    (hnd : (pubs.map Prod.fst).Nodup) (hm : (q, r) ∈ pubs) : lookupPub pubs q = some r := by
  induction pubs with
  | nil => simp at hm
  | cons e rest ih =>
    rw [List.map_cons, List.nodup_cons] at hnd
    rcases List.mem_cons.mp hm with heq | hmem
    · rw [← heq]
      simp [lookupPub]
    · have hne : e.1 ≠ q := by
        intro hh
        apply hnd.1
        rw [hh]
        exact List.mem_map_of_mem Prod.fst hmem
      simp [lookupPub, hne, ih hnd.2 hmem]

theorem countReady_sub_receiver (s1 : ProgState) (x : Int) :
    countReadyPublishers { s1 with receiverCount := x } = countReadyPublishers s1 := rfl

theorem countPlay_sub_receiver (s1 : ProgState) (x : Int) :
    countPlayClients { s1 with receiverCount := x } = countPlayClients s1 := rfl

theorem countReady_sub_publisher (s1 : ProgState) (x : Int) :
    countReadyPublishers { s1 with publisherCount := x } = countReadyPublishers s1 := rfl

theorem countPlay_sub_publisher (s1 : ProgState) (x : Int) :
    countPlayClients { s1 with publisherCount := x } = countPlayClients s1 := rfl

theorem countReady_close_form (s : ProgState) (cl : List Nat)
    (pubs : List (String × PubRef)) :
    countReadyPublishers { s with clients := cl, publishers := pubs } =
      ((pubs.filter (fun e => publisherIsReady s e.2)).length : Int) := rfl

theorem countPlay_close_form (s : ProgState) (cl : List Nat)
    (pubs : List (String × PubRef)) :
    countPlayClients { s with clients := cl, publishers := pubs } =
      ((cl.filter (fun i => decide ((s.clientHeap i).state = ClientState.play))).length :
        Int) := rfl

theorem countReady_rfl (s : ProgState) :
    countReadyPublishers s =
      ((s.publishers.filter (fun e => publisherIsReady s e.2)).length : Int) := rfl

theorem countPlay_rfl (s : ProgState) :
    countPlayClients s =
      ((s.clients.filter
        (fun i => decide ((s.clientHeap i).state = ClientState.play))).length : Int) := rfl

/-- A heap write that does not change whether the written client is in
RECORD state does not change the ready-publisher count. -/
theorem countReady_updateClient_congr (s : ProgState) (id : Nat)
    (f : ServerClient → ServerClient)
    (hf : decide ((f (s.clientHeap id)).state = ClientState.record) =
          decide ((s.clientHeap id).state = ClientState.record)) :
    countReadyPublishers (updateClient s id f) = countReadyPublishers s := by
  have hfl : s.publishers.filter (fun e => publisherIsReady (updateClient s id f) e.2) =
      s.publishers.filter (fun e => publisherIsReady s e.2) := by
    apply List.filter_congr
    intro e he
    cases hpr : e.2 with
    | client j =>
      by_cases hj : j = id
      · subst hj
        simp only [publisherIsReady, updateClient_heap_self]
        exact hf
      · simp only [publisherIsReady, updateClient_heap_other s id j f hj]
    | src j => rfl
  simp [countReadyPublishers, updateClient_publishers, hfl]

/-- A heap write that does not change whether the written client is in
PLAY state does not change the playing-client count. -/
theorem countPlay_updateClient_congr (s : ProgState) (id : Nat)
    (f : ServerClient → ServerClient)
    (hf : decide ((f (s.clientHeap id)).state = ClientState.play) =
          decide ((s.clientHeap id).state = ClientState.play)) :
    countPlayClients (updateClient s id f) = countPlayClients s := by
  have hfl : s.clients.filter
      (fun i => decide (((updateClient s id f).clientHeap i).state = ClientState.play)) =
      s.clients.filter (fun i => decide ((s.clientHeap i).state = ClientState.play)) := by
    apply List.filter_congr
    intro x hx
    by_cases hxid : x = id
    · subst hxid
      rw [updateClient_heap_self]
      exact hf
    · rw [updateClient_heap_other s id x f hxid]
  simp [countPlayClients, updateClient_clients, hfl]

/-- Taking one client out of PLAY drops the playing count by one. -/
theorem countPlay_updateClient_unplay (s : ProgState) (id : Nat)
    (f : ServerClient → ServerClient)
    (hnd : s.clients.Nodup) (hmem : id ∈ s.clients)
    (hbefore : (s.clientHeap id).state = ClientState.play)
    (hafter : (f (s.clientHeap id)).state ≠ ClientState.play) :
    (s.clients.filter (fun i =>
      decide (((updateClient s id f).clientHeap i).state = ClientState.play))).length + 1 =
    (s.clients.filter (fun i => decide ((s.clientHeap i).state = ClientState.play))).length := by
  have hsplit := length_filter_or_split
    (fun i => decide ((s.clientHeap i).state = ClientState.play))
    (fun i => decide (((updateClient s id f).clientHeap i).state = ClientState.play))
    (fun i => decide (i = id)) s.clients ?_
  · rw [hsplit, filter_eq_id_length s.clients id hnd hmem]
  · intro a ha
    by_cases haid : a = id
    · subst haid
      constructor
      · simp [hbefore, updateClient_heap_self, hafter]
      · simp [updateClient_heap_self, hafter]
    · constructor
      · simp [updateClient_heap_other s id a f haid, haid]
      · simp [haid]

/-- Taking one client out of RECORD drops the ready count by the number
of publisher entries referencing that client. -/
theorem countReady_updateClient_unready (s : ProgState) (id : Nat)
    (f : ServerClient → ServerClient)
    (hbefore : (s.clientHeap id).state = ClientState.record)
    (hafter : (f (s.clientHeap id)).state ≠ ClientState.record) :
    (s.publishers.filter (fun e => publisherIsReady (updateClient s id f) e.2)).length +
      (s.publishers.filter (fun e => decide (e.2 = PubRef.client id))).length =
    (s.publishers.filter (fun e => publisherIsReady s e.2)).length := by
  have hsplit := length_filter_or_split
    (fun e => publisherIsReady s e.2)
    (fun e => publisherIsReady (updateClient s id f) e.2)
    (fun e => decide (e.2 = PubRef.client id)) s.publishers ?_
  · omega
  · intro e he
    cases hpr : e.2 with
    | client j =>
      by_cases hj : j = id
      · subst hj
        constructor
        · simp [publisherIsReady, hpr, updateClient_heap_self, hbefore, hafter]
        · simp [publisherIsReady, hpr, updateClient_heap_self, hafter]
      · constructor
        · simp [publisherIsReady, hpr, updateClient_heap_other s id j f hj, hj]
        · simp [publisherIsReady, hpr, hj]
    | src j =>
      constructor
      · simp [publisherIsReady, hpr, updateClient]
      · simp [publisherIsReady, hpr]

/-- Deleting the map entry of a non-recording client does not change the
ready-publisher count (keys are unique, so only that entry is removed). -/
theorem countReady_delete (s : ProgState) (path : String) (id : Nat)
    (hkeys : (s.publishers.map Prod.fst).Nodup)
    (hlk : lookupPub s.publishers path = some (PubRef.client id))
    (hrec : (s.clientHeap id).state ≠ ClientState.record) :
    ((deletePub s.publishers path).filter (fun e => publisherIsReady s e.2)).length =
      (s.publishers.filter (fun e => publisherIsReady s e.2)).length := by
  unfold deletePub
  rw [List.filter_filter]
  apply congrArg List.length
  apply List.filter_congr
  intro e he
  by_cases hep : e.1 = path
  · have hl2 : lookupPub s.publishers e.1 = some e.2 :=
      lookupPub_of_mem s.publishers e.1 e.2 hkeys he
    rw [hep] at hl2
    have he2 : e.2 = PubRef.client id := Option.some.inj (hl2.symm.trans hlk)
    rw [he2]
    simp [publisherIsReady, hrec, hep]
  · simp [hep]

/-- Removing a client that is not playing does not change the playing
count. -/
theorem countPlay_remove (s : ProgState) (id : Nat)
    (hplay : (s.clientHeap id).state ≠ ClientState.play) :
    ((s.clients.filter (fun j => decide (j ≠ id))).filter
      (fun i => decide ((s.clientHeap i).state = ClientState.play))).length =
    (s.clients.filter (fun i => decide ((s.clientHeap i).state = ClientState.play))).length := by
  rw [List.filter_filter]
  apply congrArg List.length
  apply List.filter_congr
  intro x hx
  by_cases hxid : x = id
  · subst hxid
    simp [hplay]
  · simp [hxid]

/-- Processing ClientClose for a client in neither PLAY nor RECORD state
preserves the counter invariant. -/
theorem countersOk_close (s : ProgState) (id : Nat)
    (hc : countersOk s)
    (hkeys : (s.publishers.map Prod.fst).Nodup)
    (hplay : (s.clientHeap id).state ≠ ClientState.play)
    (hrec : (s.clientHeap id).state ≠ ClientState.record) :
    countersOk (processEvent s (Event.clientClose id)).1 := by
  by_cases hmem : id ∈ s.clients
  · simp only [processEvent, if_pos hmem]
    constructor
    · rw [countReady_close_form]
      by_cases hdel : (s.clientHeap id).path ≠ "" ∧
          lookupPub s.publishers (s.clientHeap id).path = some (PubRef.client id)
      · rw [if_pos hdel, countReady_delete s _ id hkeys hdel.2 hrec, ← countReady_rfl]
        exact hc.1
      · rw [if_neg hdel, ← countReady_rfl]
        exact hc.1
    · rw [countPlay_close_form, countPlay_remove s id hplay, ← countPlay_rfl]
      exact hc.2
  · simp only [processEvent, if_neg hmem]
    exact hc

/-- Processing PlayStop for a playing client preserves the counter
invariant. -/
theorem countersOk_playStop (s : ProgState) (id : Nat)
    (hc : countersOk s) (hnd : s.clients.Nodup) (hmem : id ∈ s.clients)
    (hplay : (s.clientHeap id).state = ClientState.play) :
    countersOk (processEvent s (Event.playStop id)).1 := by
  simp only [processEvent]
  constructor
  · rw [countReady_sub_receiver,
      countReady_updateClient_congr s id _ (by simp [hplay])]
    exact hc.1
  · rw [countPlay_sub_receiver]
    have hsplit := countPlay_updateClient_unplay s id
      (fun c => { c with state := ClientState.prePlay }) hnd hmem hplay (by simp)
    have hcp : countPlayClients (updateClient s id
        (fun c => { c with state := ClientState.prePlay })) =
        ((s.clients.filter (fun i =>
          decide (((updateClient s id (fun c => { c with state := ClientState.prePlay
            })).clientHeap i).state = ClientState.play))).length : Int) := rfl
    rw [hcp]
    have hc2 := hc.2
    rw [countPlay_rfl] at hc2
    show s.receiverCount - 1 = _
    omega

/-- Processing RecordStop for a recording client registered at exactly
one publisher entry preserves the counter invariant. -/
theorem countersOk_recordStop (s : ProgState) (id : Nat)
    (hc : countersOk s)
    (hrec : (s.clientHeap id).state = ClientState.record)
    (hone : (s.publishers.filter (fun e => decide (e.2 = PubRef.client id))).length = 1) :
    countersOk (processEvent s (Event.recordStop id)).1 := by
  simp only [processEvent]
  constructor
  · rw [countReady_sub_publisher]
    have hsplit := countReady_updateClient_unready s id
      (fun c => { c with state := ClientState.preRecord }) hrec (by simp)
    have hcr : countReadyPublishers (updateClient s id
        (fun c => { c with state := ClientState.preRecord })) =
        ((s.publishers.filter (fun e => publisherIsReady (updateClient s id
          (fun c => { c with state := ClientState.preRecord })) e.2)).length : Int) := rfl
    rw [hcr]
    have hc1 := hc.1
    rw [countReady_rfl] at hc1
    show s.publisherCount - 1 = _
    omega
  · rw [countPlay_sub_publisher,
      countPlay_updateClient_congr s id _ (by simp [hrec])]
    exact hc.2

/-- C1 (counterexample): in the reachable state `stateLive` the counters
match, client 0 is in PLAY and present; after the coordinator processes
ClientClose for it, receiver_count still reads 1 while no playing client
remains, so the claimed invariant fails at that quiescent point. -/
theorem claim1_counters_cex :
    countersOk stateLive ∧
    (stateLive.clientHeap 0).state = ClientState.play ∧
    0 ∈ stateLive.clients ∧
    ¬ countersOk (processEvent stateLive (Event.clientClose 0)).1 := by
  decide

/-- C1 (amended): the counter equalities are preserved at quiescent
points by the close path provided a ClientClose is only processed for a
client that is in neither PLAY nor RECORD state; for a client still in
PLAY (resp. RECORD, registered at exactly one publisher entry) the
invariant is preserved by the PlayStop (resp. RecordStop) event followed
by the ClientClose, which is the order the session emits them; a bare
ClientClose of a PLAY or RECORD client leaves the counter stale. -/
theorem claim1_counters_amended (s : ProgState) (id : Nat)
    (hc : countersOk s)
    (hkeys : (s.publishers.map Prod.fst).Nodup)
    (hnd : s.clients.Nodup)
    (hmem : id ∈ s.clients) :
    (((s.clientHeap id).state ≠ ClientState.play ∧
        (s.clientHeap id).state ≠ ClientState.record) →
      countersOk (processEvent s (Event.clientClose id)).1) ∧
    ((s.clientHeap id).state = ClientState.play →
      countersOk
        (processEvent (processEvent s (Event.playStop id)).1 (Event.clientClose id)).1) ∧
    (((s.clientHeap id).state = ClientState.record ∧
        (s.publishers.filter (fun e => decide (e.2 = PubRef.client id))).length = 1) →
      countersOk
        (processEvent (processEvent s (Event.recordStop id)).1 (Event.clientClose id)).1) := by
  refine ⟨?_, ?_, ?_⟩
  · intro h
    exact countersOk_close s id hc hkeys h.1 h.2
  · intro hplay
    have hstate : ((processEvent s (Event.playStop id)).1.clientHeap id).state =
        ClientState.prePlay := by
      simp [processEvent]
    apply countersOk_close
    · exact countersOk_playStop s id hc hnd hmem hplay
    · exact hkeys
    · rw [hstate]
      decide
    · rw [hstate]
      decide
  · intro h
    have hstate : ((processEvent s (Event.recordStop id)).1.clientHeap id).state =
        ClientState.preRecord := by
      simp [processEvent]
    apply countersOk_close
    · exact countersOk_recordStop s id hc h.1 h.2
    · exact hkeys
    · rw [hstate]
      decide
    · rw [hstate]
      decide

/-- C1 witness: on `stateLive` (counters matching, duplicate-free sets,
viewer 0 in PLAY) the PlayStop-then-ClientClose sequence preserves the
counter equalities. -/
theorem claim1_counters_witness :
    countersOk stateLive ∧
    (stateLive.publishers.map Prod.fst).Nodup ∧
    stateLive.clients.Nodup ∧
    0 ∈ stateLive.clients ∧
    (stateLive.clientHeap 0).state = ClientState.play ∧
    countersOk
      (processEvent (processEvent stateLive (Event.playStop 0)).1 (Event.clientClose 0)).1 :=
  ⟨by decide, by decide, by decide, by decide, by decide,
    (claim1_counters_amended stateLive 0 (by decide) (by decide) (by decide)
      (by decide)).2.1 (by decide)⟩

end Rtsp
